import Mathlib

/-!
Verification of the Git-Hired scoring engine (src/backend/app.py and
src/backend/analyzer.py) against its natural-language specification.

The Python code is shallowly embedded: Python floats are modelled as
exact rationals (`ℚ`), Python lists as Lean lists, Python strings as
`String` / `List Char`.  `round(x, 2)`, `round(x, 0)` and `round(x)`
(banker's rounding) are modelled by `round2`, `pyRound0` and
`roundHalfEven`.  External libraries (BeautifulSoup, GitHub API,
datetime) are not part of the repository; values produced by them enter
the embedding as explicit parameters, as noted at each definition.
-/

/-- Python whitespace for `str.strip` / regex `\s`:
space, tab, newline, carriage return, vertical tab, form feed. -/
def isPySpace (c : Char) : Bool :=
  c = ' ' || c = '\t' || c = '\n' || c = '\r' || c = '\x0b' || c = '\x0c'

/-- Regex word character (`\w`), ASCII fragment: letters, digits, underscore. -/
def isWordChar (c : Char) : Bool :=
  c.isAlphanum || c = '_'

/-- Python's substring test `pat in hay` on character lists. -/
def infixOf (pat : List Char) : List Char → Bool
  | [] => pat.isEmpty
  | c :: t => pat.isPrefixOf (c :: t) || infixOf pat t

/-- Python `str.lower` (ASCII fragment, matching `Char.toLower`). -/
def pyLower (s : String) : String :=
  ⟨s.data.map Char.toLower⟩

/-- Python `str.strip`: drop leading and trailing whitespace. -/
def pyStrip (l : List Char) : List Char :=
  ((l.dropWhile isPySpace).reverse.dropWhile isPySpace).reverse

/-- Banker's rounding to an integer, as Python's builtin `round`. -/
def roundHalfEven (q : ℚ) : ℤ :=
  if q - ⌊q⌋ < 1 / 2 then ⌊q⌋
  else if 1 / 2 < q - ⌊q⌋ then ⌊q⌋ + 1
  else if ⌊q⌋ % 2 = 0 then ⌊q⌋ else ⌊q⌋ + 1

/-- Python `round(x, 2)`. -/
def round2 (q : ℚ) : ℚ :=
  (roundHalfEven (q * 100) : ℚ) / 100

/-- Python `round(x, 0)` (result stays a float in Python, hence `ℚ`). -/
def pyRound0 (q : ℚ) : ℚ :=
  (roundHalfEven q : ℚ)

/-- `statistics.mean` on rationals (0 on the empty list; the sources
only apply it to non-empty lists). -/
def qmean (l : List ℚ) : ℚ :=
  l.sum / l.length

theorem le_roundHalfEven {q : ℚ} {a : ℤ} (h : (a : ℚ) ≤ q) :
    a ≤ roundHalfEven q := by
  have hfl : a ≤ ⌊q⌋ := Int.le_floor.mpr h
  unfold roundHalfEven
  split
  · exact hfl
  · split
    · omega
    · split <;> omega

theorem roundHalfEven_le {q : ℚ} {b : ℤ} (h : q ≤ (b : ℚ)) :
    roundHalfEven q ≤ b := by
  have hfl : ⌊q⌋ ≤ b := by
    have := Int.floor_le_floor (α := ℚ) h
    simpa using this
  have hflq : (⌊q⌋ : ℚ) ≤ q := Int.floor_le q
  unfold roundHalfEven
  split
  · exact hfl
  · have hhalf : (⌊q⌋ : ℚ) + 1 / 2 ≤ q := by
      rename_i hlt
      push_neg at hlt
      linarith
    have hq : (⌊q⌋ : ℚ) < (b : ℚ) := by linarith
    have : ⌊q⌋ < b := by exact_mod_cast hq
    split
    · omega
    · split <;> omega

theorem le_round2 {q : ℚ} {a : ℤ} (h : (a : ℚ) ≤ q) :
    (a : ℚ) ≤ round2 q := by
  have h100 : ((a * 100 : ℤ) : ℚ) ≤ q * 100 := by push_cast; linarith
  have := le_roundHalfEven h100
  have hc : ((a * 100 : ℤ) : ℚ) ≤ (roundHalfEven (q * 100) : ℚ) := by
    exact_mod_cast this
  unfold round2
  rw [le_div_iff₀ (by norm_num : (0:ℚ) < 100)]
  push_cast at hc ⊢
  linarith

theorem round2_le {q : ℚ} {b : ℤ} (h : q ≤ (b : ℚ)) :
    round2 q ≤ (b : ℚ) := by
  have h100 : q * 100 ≤ ((b * 100 : ℤ) : ℚ) := by push_cast; linarith
  have := roundHalfEven_le h100
  have hc : (roundHalfEven (q * 100) : ℚ) ≤ ((b * 100 : ℤ) : ℚ) := by
    exact_mod_cast this
  unfold round2
  push_cast at hc
  linarith

theorem qmean_le {l : List ℚ} {b : ℚ} (hb : 0 ≤ b)
    (h : ∀ x ∈ l, x ≤ b) : qmean l ≤ b := by
  unfold qmean
  rcases l with _ | ⟨x, t⟩
  · simpa using hb
  · have hlen : (0 : ℚ) < ((x :: t).length : ℚ) := by
      have : 0 < (x :: t).length := by simp
      exact_mod_cast this
    rw [div_le_iff₀ hlen]
    have hsum : (x :: t).sum ≤ (x :: t).length • b :=
      List.sum_le_card_nsmul _ _ h
    simpa [nsmul_eq_mul, mul_comm] using hsum

theorem list_sum_pos_of_one_le {l : List ℚ} (hne : l ≠ [])
    (h : ∀ x ∈ l, 1 ≤ x) : 0 < l.sum := by
  rcases l with _ | ⟨x, t⟩
  · exact absurd rfl hne
  · have hx : 1 ≤ x := h x (by simp)
    have ht : 0 ≤ t.sum := List.sum_nonneg fun y hy =>
      le_trans zero_le_one (h y (by simp [hy]))
    simp only [List.sum_cons]
    linarith

/-! ## Candidate ranker — src/backend/app.py -/

/-- `SKILL_PATTERNS` (app.py:167-210): fixed category → keyword table. -/
def SKILL_PATTERNS : List (String × List String) :=
  [("frontend",
    ["react", "vue", "angular", "svelte", "frontend", "front-end", "html", "css", "javascript", "typescript",
     "sass", "scss", "less", "next.js", "nuxt", "gatsby", "webpack", "vite", "tailwind", "bootstrap",
     "material-ui", "mui", "chakra", "styled-components", "emotion", "redux", "mobx", "zustand",
     "jquery", "backbone", "ember", "knockout", "polymer", "lit", "stencil", "alpine.js"]),
   ("backend",
    ["django", "flask", "fastapi", "express", "koa", "hapi", "nestjs", "spring", "spring-boot",
     "backend", "back-end", "api", "server", "node.js", "nodejs", "laravel", "symfony", "codeigniter",
     "rails", "ruby-on-rails", "sinatra", "asp.net", "dotnet", ".net", "core", "mvc", "web-api",
     "go", "gin", "echo", "fiber", "rust", "actix", "rocket", "warp", "axum", "php", "slim"]),
   ("mobile",
    ["android", "ios", "react-native", "flutter", "swift", "kotlin", "mobile", "xamarin",
     "ionic", "cordova", "phonegap", "expo", "nativescript", "unity", "unreal", "java-android",
     "objective-c", "swiftui", "jetpack-compose", "flutter-dart", "capacitor"]),
   ("ml",
    ["machine-learning", "ml", "tensorflow", "pytorch", "sklearn", "scikit-learn", "ai", "artificial-intelligence",
     "neural", "deep-learning", "data-science", "pandas", "numpy", "matplotlib", "seaborn", "plotly",
     "jupyter", "notebook", "keras", "opencv", "computer-vision", "nlp", "natural-language-processing",
     "transformers", "bert", "gpt", "llm", "langchain", "huggingface", "xgboost", "lightgbm", "catboost"]),
   ("devops",
    ["docker", "kubernetes", "k8s", "aws", "amazon-web-services", "gcp", "google-cloud", "azure",
     "microsoft-azure", "terraform", "ansible", "jenkins", "ci/cd", "github-actions", "gitlab-ci",
     "circle-ci", "travis-ci", "helm", "istio", "prometheus", "grafana", "elk", "elasticsearch",
     "logstash", "kibana", "nginx", "apache", "load-balancer", "microservices", "serverless"]),
   ("database",
    ["mongodb", "postgresql", "postgres", "mysql", "sqlite", "redis", "elasticsearch", "database",
     "sql", "nosql", "cassandra", "dynamodb", "firebase", "firestore", "supabase", "planetscale",
     "prisma", "typeorm", "sequelize", "mongoose", "knex", "drizzle", "clickhouse", "snowflake"]),
   ("testing",
    ["jest", "mocha", "chai", "cypress", "selenium", "playwright", "puppeteer", "testing", "unit-test",
     "integration-test", "e2e", "tdd", "bdd", "pytest", "unittest", "rspec", "jasmine", "karma"]),
   ("tools",
    ["git", "github", "gitlab", "bitbucket", "vscode", "intellij", "vim", "emacs", "sublime",
     "postman", "insomnia", "figma", "sketch", "adobe", "photoshop", "illustrator"])]

/-- All keywords of `SKILL_PATTERNS`, in iteration order. -/
def allSkillKeywords : List String :=
  (SKILL_PATTERNS.map Prod.snd).flatten

/-- The alternatives of the `framework_patterns` word-boundary regexes
(app.py:228-234), in order. -/
def frameworkWords : List String :=
  ["react", "vue", "angular", "svelte", "django", "flask", "fastapi", "express",
   "tensorflow", "pytorch", "keras", "docker", "kubernetes", "k8s",
   "mongodb", "postgresql", "mysql", "redis"]

/-- Whether `w` occurs in `rest` with `\b` word boundaries on both
sides; `prev` is the character to the left of `rest` (none at the start
of the text).  Models one `re.findall(r'\b(...)\b', text)` alternative;
every alternative is a non-empty all-word-character string. -/
def occursWordFrom (w : List Char) (prev : Option Char) : List Char → Bool
  | [] => w.isPrefixOf [] &&
      (match prev with | none => true | some p => !isWordChar p)
  | c :: t =>
    (w.isPrefixOf (c :: t) &&
      (match prev with | none => true | some p => !isWordChar p) &&
      (match (c :: t).drop w.length with
       | [] => true
       | d :: _ => !isWordChar d)) ||
    occursWordFrom w (some c) t

/-- `\b w \b` occurs somewhere in `text`. -/
def occursWord (w : List Char) (text : List Char) : Bool :=
  occursWordFrom w none text

/-- `extract_skills_from_text` (app.py:212-241).  The Python function
returns `list(set(found_skills))`; only the underlying set is used by
callers, so the embedding returns the duplicate-free list of first
occurrences.  `re.findall` appends one entry per regex occurrence, all
collapsed by the final `set`, so filtering each framework alternative by
occurrence is set-equivalent. -/
def extract_skills_from_text (text : String) : List String :=
  if text.isEmpty then []
  else
    ((allSkillKeywords.filter (fun k => infixOf k.data (pyLower text).data)) ++
      (frameworkWords.filter (fun k => occursWord k.data (pyLower text).data))).dedup

/-- One repository record as consumed by `match_single_candidate`
(app.py:826-831): `repo.get("name")`, `repo.get("detected_skills")`,
`repo.get("readme_content")`, `repo.get("description")`,
`repo.get("stars")`, `repo.get("readme_length")`. -/
structure RepoInput where
  name : String
  detected_skills : List String
  readme_content : String
  description : String
  stars : ℕ
  readme_length : ℕ

/-- `repo_skills_lower` (app.py:833). -/
def repoSkillsLower (r : RepoInput) : List String :=
  r.detected_skills.map pyLower

/-- `required_matches = len(set(required_skills) & set(repo_skills_lower))`
(app.py:835): the number of distinct required skills detected. -/
def requiredMatches (required : List String) (r : RepoInput) : ℕ :=
  (required.dedup.filter (fun s => (repoSkillsLower r).contains s)).length

/-- `required_score = required_matches / max(len(required_skills), 1) * 70`
(app.py:836). -/
def required_score (required : List String) (r : RepoInput) : ℚ :=
  (requiredMatches required r : ℚ) / ((max required.length 1 : ℕ) : ℚ) * 70

/-- `nice_to_have_matches` (app.py:838). -/
def niceMatches (nice : List String) (r : RepoInput) : ℕ :=
  (nice.dedup.filter (fun s => (repoSkillsLower r).contains s)).length

/-- `nice_to_have_score` (app.py:839). -/
def nice_to_have_score (nice : List String) (r : RepoInput) : ℚ :=
  (niceMatches nice r : ℚ) / ((max nice.length 1 : ℕ) : ℚ) * 15

/-- `all_text = f"{description} {readme_content}".lower()` (app.py:841). -/
def allTextLower (r : RepoInput) : String :=
  pyLower (r.description ++ " " ++ r.readme_content)

/-- `context_matches = sum(1 for skill in all_job_skills if skill in all_text)`
(app.py:842). -/
def contextMatches (allJob : List String) (r : RepoInput) : ℕ :=
  (allJob.filter (fun s => infixOf s.data (allTextLower r).data)).length

/-- `context_score = min(context_matches / max(len(all_job_skills), 1) * 10, 10)`
(app.py:843). -/
def context_score (allJob : List String) (r : RepoInput) : ℚ :=
  min ((contextMatches allJob r : ℚ) / ((max allJob.length 1 : ℕ) : ℚ) * 10) 10

/-- `readme_bonus = min(readme_length / 1000, 1) * 3` (app.py:845). -/
def readme_bonus (r : RepoInput) : ℚ :=
  min ((r.readme_length : ℚ) / 1000) 1 * 3

/-- `popularity_bonus = min(stars / 10, 1) * 2` (app.py:846). -/
def popularity_bonus (r : RepoInput) : ℚ :=
  min ((r.stars : ℚ) / 10) 1 * 2

/-- `repo_match_percentage` (app.py:848-851): the component sum capped at 100. -/
def repo_match_percentage (required nice allJob : List String) (r : RepoInput) : ℚ :=
  min (required_score required r + nice_to_have_score nice r + context_score allJob r +
        readme_bonus r + popularity_bonus r) 100

/-- `repo_weight = max(stars, 1) * max(readme_length / 100, 1)` (app.py:858). -/
def repo_weight (r : RepoInput) : ℚ :=
  ((max r.stars 1 : ℕ) : ℚ) * max ((r.readme_length : ℚ) / 100) 1

/-- `all_job_skills = list(set(required_skills + nice_to_have + job_skills_from_desc))`
(app.py:809-810); `required`/`nice` are already lower-cased here. -/
def all_job_skills (required nice : List String) (job_description : String) : List String :=
  (required ++ nice ++ extract_skills_from_text job_description).dedup

/-- `total_weight` accumulated over the repository loop (app.py:823,860). -/
def candidate_total_weight (repos : List RepoInput) : ℚ :=
  (repos.map repo_weight).sum

/-- `sum(weighted_scores)` (app.py:859,862). -/
def candidate_weighted_sum (required nice allJob : List String) (repos : List RepoInput) : ℚ :=
  (repos.map (fun r => repo_match_percentage required nice allJob r * repo_weight r)).sum

/-- `total_match_percentage = sum(weighted_scores) / total_weight if total_weight > 0 else 0`
(app.py:862), before the final rounding. -/
def candidate_aggregate (required nice allJob : List String) (repos : List RepoInput) : ℚ :=
  if 0 < candidate_total_weight repos then
    candidate_weighted_sum required nice allJob repos / candidate_total_weight repos
  else 0

/-- Stable descending insertion by match percentage, modelling
`repo_matches.sort(key=lambda x: x["match_percentage"], reverse=True)` (app.py:864). -/
def insertByPct (x : String × ℚ) : List (String × ℚ) → List (String × ℚ)
  | [] => [x]
  | y :: t => if y.2 < x.2 then x :: y :: t else y :: insertByPct x t

/-- Sort the match list in descending percentage order. -/
def sortByPctDesc (l : List (String × ℚ)) : List (String × ℚ) :=
  l.foldr insertByPct []

/-- The JSON payload returned by `match_single_candidate` (app.py:815-819, 866-870). -/
structure RankResult where
  candidate_username : String
  total_match_percentage : ℚ
  repo_matches : List (String × ℚ)
deriving DecidableEq

/-- `match_single_candidate` (app.py:794-874), request parsing and HTTP
glue stripped: inputs are the request fields, output the response
payload.  The `candidate_data`-missing 400 branch is outside the
embedded core (it precedes any scoring). -/
def match_single_candidate (username job_description : String)
    (required_skills nice_to_have : List String) (top_repos : List RepoInput) : RankResult :=
  let required := required_skills.map pyLower
  let nice := nice_to_have.map pyLower
  let allJob := all_job_skills required nice job_description
  if top_repos.isEmpty then
    { candidate_username := username, total_match_percentage := 0, repo_matches := [] }
  else
    { candidate_username := username
      total_match_percentage := pyRound0 (candidate_aggregate required nice allJob top_repos)
      repo_matches := sortByPctDesc (top_repos.map
        (fun r => (r.name, pyRound0 (repo_match_percentage required nice allJob r)))) }

/-! ## Complexity summarizer — src/backend/analyzer.py:103-108 -/

/-- A character matched by the regex class `[\d.]`. -/
def isFloatChar (c : Char) : Bool :=
  c.isDigit || c = '.'

/-- `re.search(r'AvgCCN:\s*([\d.]+)', output)`: scan left to right for
the literal `AvgCCN:`, skip whitespace, take the maximal run of
`[\d.]`; a position with an empty run fails and the search resumes one
character further, exactly as the backtracking-free classes (`\s` and
`[\d.]` are disjoint) make the Python engine behave.  Returns the
matched group. -/
def findAvgGroup : List Char → Option (List Char)
  | [] => none
  | c :: t =>
    if List.isPrefixOf ("AvgCCN:".data) (c :: t) then
      let g := List.takeWhile isFloatChar (List.dropWhile isPySpace (List.drop 7 (c :: t)))
      if g.isEmpty then findAvgGroup t else some g
    else findAvgGroup t

/-- Digit run to natural number. -/
def digitsToNat (l : List Char) : ℕ :=
  l.foldl (fun a c => a * 10 + (c.toNat - 48)) 0

/-- Shape analysis of a digits-and-dots string for Python `float`:
integer part, fraction digits and fraction length, or `none` for the
shapes (`"."`, `"1.2.3"`, ...) on which `float` raises `ValueError`. -/
def pyFloatParts (l : List Char) : Option (ℕ × ℕ × ℕ) :=
  match l.splitOn '.' with
  | [ip] => if ip.isEmpty then none else some (digitsToNat ip, 0, 0)
  | [ip, fp] =>
    if ip.isEmpty && fp.isEmpty then none
    else some (digitsToNat ip, digitsToNat fp, fp.length)
  | _ => none

/-- Python `float` applied to a string of digits and dots -- the only
shapes `findAvgGroup` can produce.  `none` models the `ValueError`. -/
def pyFloat (l : List Char) : Option ℚ :=
  (pyFloatParts l).map (fun p => (p.1 : ℚ) + (p.2.1 : ℚ) / (10 : ℚ) ^ p.2.2)

/-- The linear transform `max(0, min(100, 100 - (avg_ccn - 1) * 12.5))`
(analyzer.py:107). -/
def ccnTransform (avg_ccn : ℚ) : ℚ :=
  max 0 (min 100 (100 - (avg_ccn - 1) * 12.5))

/-- `extract_avg_ccn_from_lizard_output` (analyzer.py:103-108).
`none` models the uncaught `ValueError` of `float` on a matched group
that is not a valid float literal; otherwise `some` of the returned
score (50 when the pattern does not match). -/
def extract_avg_ccn_from_lizard_output (output : String) : Option ℚ :=
  match findAvgGroup output.data with
  | some g => Option.map ccnTransform (pyFloat g)
  | none => some 50

/-! ## Code readability scorer — src/backend/analyzer.py:315-395 -/

/-- Translate `\r\n` and `\r` to `\n`, as Python's universal-newline
text mode does on reading. -/
def translateNL : List Char → List Char
  | [] => []
  | '\r' :: '\n' :: t => '\n' :: translateNL t
  | '\r' :: t => '\n' :: translateNL t
  | c :: t => c :: translateNL t

/-- Split after each `\n`, keeping it (helper of `pyReadlines`);
`acc` holds the current line reversed. -/
def splitKeepAux (acc : List Char) : List Char → List (List Char)
  | [] => if acc.isEmpty then [] else [acc.reverse]
  | '\n' :: t => ('\n' :: acc).reverse :: splitKeepAux [] t
  | c :: t => splitKeepAux (c :: acc) t

/-- Python `f.readlines()` on decoded content: universal newlines, each
line keeping its trailing `\n`. -/
def pyReadlines (content : List Char) : List (List Char) :=
  splitKeepAux [] (translateNL content)

/-- Python `str.splitlines()` (no kept ends), on `\n`, `\r\n`, `\r`. -/
def splitNoKeepAux (acc : List Char) : List Char → List (List Char)
  | [] => if acc.isEmpty then [] else [acc.reverse]
  | '\r' :: '\n' :: t => acc.reverse :: splitNoKeepAux [] t
  | '\n' :: t => acc.reverse :: splitNoKeepAux [] t
  | '\r' :: t => acc.reverse :: splitNoKeepAux [] t
  | c :: t => splitNoKeepAux (c :: acc) t

/-- `content.splitlines()`. -/
def pySplitlines (content : List Char) : List (List Char) :=
  splitNoKeepAux [] content

/-- One entry of `COMMENT_SYNTAX` (analyzer.py:315-327). -/
structure CommentSyntaxSpec where
  line : Option (List Char)
  block_start : Option (List Char)
  block_end : Option (List Char)

/-- `COMMENT_SYNTAX.get(ext, {})` (analyzer.py:315-327, 334). -/
def COMMENT_SYNTAX (ext : String) : CommentSyntaxSpec :=
  if ext == ".py" then ⟨some ("#".data), none, none⟩
  else if ext == ".js" || ext == ".ts" || ext == ".cpp" || ext == ".c" ||
      ext == ".java" || ext == ".cs" || ext == ".go" then
    ⟨some ("//".data), some ("/*".data), some ("*/".data)⟩
  else if ext == ".rb" then ⟨some ("#".data), none, none⟩
  else if ext == ".html" || ext == ".xml" then ⟨none, some ("<!--".data), some ("-->".data)⟩
  else ⟨none, none, none⟩

/-- One iteration of the `detect_comment_lines` loop body
(analyzer.py:338-348) on an already-stripped line: returns whether the
line was counted and the new `in_block` flag. -/
def detectCommentStep (syn : CommentSyntaxSpec) (in_block : Bool) (s : List Char) : Bool × Bool :=
  if (match syn.line with
      | some lc => List.isPrefixOf lc s
      | none => false) then
    (true, in_block)
  else
    match syn.block_start, syn.block_end with
    | some bs, some be =>
      if in_block || List.isPrefixOf bs s then
        (true, !(List.isSuffixOf be s || infixOf be s))
      else (false, in_block)
    | _, _ => (false, in_block)

/-- Fold of `detectCommentStep` over the lines. -/
def detectCommentAux (syn : CommentSyntaxSpec) : Bool → List (List Char) → ℕ
  | _, [] => 0
  | in_block, l :: t =>
    (if (detectCommentStep syn in_block (pyStrip l)).1 then 1 else 0) +
      detectCommentAux syn (detectCommentStep syn in_block (pyStrip l)).2 t

/-- `detect_comment_lines` (analyzer.py:333-350). -/
def detect_comment_lines (lines : List (List Char)) (ext : String) : ℕ :=
  detectCommentAux (COMMENT_SYNTAX ext) false lines

/-- `indent_score` (analyzer.py:369-378): 15 if at most one indentation
style is in use, else 5, minus half a point per mixed-indent line,
clamped to [0, 15]. -/
def indentScoreOf (lines : List (List Char)) : ℚ :=
  max 0 (min 15
    ((if (lines.filter (fun l => List.isPrefixOf ("    ".data) l)).length = 0 ||
         (lines.filter (fun l => List.isPrefixOf ['\t'] l)).length = 0
      then (15 : ℚ) else 5) -
      ((lines.filter (fun l => (l.take 8).contains '\t' && (l.take 8).contains ' ')).length : ℚ) *
        (1 / 2)))

/-- `comment_ratio` (analyzer.py:380). -/
def commentDensityOf (ext : String) (lines : List (List Char)) : ℚ :=
  (detect_comment_lines lines ext : ℚ) / (lines.length : ℚ)

/-- `comment_score` tiers 25 / 15 / 5 (analyzer.py:381). -/
def commentScoreOf (ext : String) (lines : List (List Char)) : ℚ :=
  if 1 / 5 < commentDensityOf ext lines then 25
  else if 1 / 10 < commentDensityOf ext lines then 15
  else 5

/-- `structure_score = max(0, 10 - long_lines)` (analyzer.py:383),
long lines being those over 100 characters. -/
def structureScoreOf (lines : List (List Char)) : ℚ :=
  max 0 (10 - ((lines.filter (fun l => 100 < l.length)).length : ℚ))

/-- `blank_line_score = min(blank_lines / total_lines * 10, 10)` (analyzer.py:384). -/
def blankScoreOf (lines : List (List Char)) : ℚ :=
  min (((lines.filter (fun l => (pyStrip l).isEmpty)).length : ℚ) / (lines.length : ℚ) * 10) 10

/-- The sub-score record returned by `score_code_readability`
(analyzer.py:388-395); `comment_density` renders the source's comment
ratio key. -/
structure CodeBreakdown where
  score : ℚ
  comment_score : ℚ
  indent_score : ℚ
  structure_score : ℚ
  blank_line_score : ℚ
  comment_density : ℚ
deriving DecidableEq

/-- Result of `score_code_readability`: either the zero-line early
return `{"score": 0}` (analyzer.py:360-361) or the full record. -/
inductive ReadabilityResult where
  | zeroLines : ReadabilityResult
  | scored : CodeBreakdown → ReadabilityResult
deriving DecidableEq

/-- The `score` entry of either result shape. -/
def ReadabilityResult.score : ReadabilityResult → ℚ
  | .zeroLines => 0
  | .scored b => b.score

/-- `score_code_readability` (analyzer.py:352-395) on decoded file
content plus the file extension (the source derives `ext` from the path
and reads the file; the unreadable-file error branch is the read
failing, outside the embedded computation). -/
def score_code_readability (ext : String) (content : List Char) : ReadabilityResult :=
  let lines := pyReadlines content
  if lines.isEmpty then .zeroLines
  else
    .scored
      { score := round2 (indentScoreOf lines + commentScoreOf ext lines +
          structureScoreOf lines + blankScoreOf lines)
        comment_score := round2 (commentScoreOf ext lines)
        indent_score := round2 (indentScoreOf lines)
        structure_score := round2 (structureScoreOf lines)
        blank_line_score := round2 (blankScoreOf lines)
        comment_density := round2 (commentDensityOf ext lines) }

/-! ## HTML scorer — src/backend/analyzer.py:110-148 -/

/-- Count of `re.findall(r'<[^/!][^>]*?>', content)` (analyzer.py:142),
as a left-to-right state machine: `inside = true` after `<c` with
`c ∉ {/, !}` has been seen and the closing `>` is still pending.  A
pending tag that never closes produces no later match (every match
needs a `>`), so the machine agrees with the regex engine's
advance-and-retry semantics. -/
def countOpenAux : Bool → List Char → ℕ
  | _, [] => 0
  | true, c :: t => if c = '>' then 1 + countOpenAux false t else countOpenAux true t
  | false, '<' :: c :: t =>
    if c = '/' || c = '!' then countOpenAux false (c :: t) else countOpenAux true t
  | false, _ :: t => countOpenAux false t
termination_by _ l => l.length
decreasing_by all_goals simp_arith

/-- `open_tags` (analyzer.py:142). -/
def countOpenTags (content : List Char) : ℕ :=
  countOpenAux false content

/-- Count of `re.findall(r'</[^>]+>', content)` (analyzer.py:143), same
state-machine construction: after `</c` with `c ≠ '>'`, scan to the
first `>`. -/
def countCloseAux : Bool → List Char → ℕ
  | _, [] => 0
  | true, c :: t => if c = '>' then 1 + countCloseAux false t else countCloseAux true t
  | false, '<' :: '/' :: c :: t =>
    if c = '>' then countCloseAux false (c :: t) else countCloseAux true t
  | false, _ :: t => countCloseAux false t
termination_by _ l => l.length
decreasing_by all_goals simp_arith

/-- `close_tags` (analyzer.py:143). -/
def countCloseTags (content : List Char) : ℕ :=
  countCloseAux false content

/-- The BeautifulSoup-derived quantities used by `score_html_quality`.
BeautifulSoup is an external library, so its outputs are inputs of the
embedding: the summed `find_all` count over the eight semantic tags
(analyzer.py:120-121), one boolean per `<img>` element for a truthy
`alt` attribute (analyzer.py:133-134), the count of elements with a
`style` attribute and the count of `<style>` tags (analyzer.py:137-138). -/
structure SoupData where
  semantic_count : ℕ
  img_alts : List Bool
  inline_styled : ℕ
  style_tag_count : ℕ

/-- `semantic_score = min(semantic_count, 5) / 5 * 25` (analyzer.py:122). -/
def semanticScoreOf (soup : SoupData) : ℚ :=
  ((min soup.semantic_count 5 : ℕ) : ℚ) / 5 * 25

/-- `indent_score` (analyzer.py:124-128): 20 when at most one of the
two indentation styles (space-led, tab-led lines) occurs, 10 otherwise. -/
def htmlIndentScoreOf (lines : List (List Char)) : ℚ :=
  if lines.any (fun l => List.isPrefixOf [' '] l) &&
      lines.any (fun l => List.isPrefixOf ['\t'] l) then 10 else 20

/-- `line_length_score` (analyzer.py:130-131), long lines over 120 characters. -/
def lineLengthScoreOf (lines : List (List Char)) : ℚ :=
  if (lines.filter (fun l => 120 < l.length)).length = 0 then 15
  else max 0 (15 - ((lines.filter (fun l => 120 < l.length)).length : ℚ))

/-- `alt_score` (analyzer.py:133-135). -/
def altScoreOf (soup : SoupData) : ℚ :=
  if soup.img_alts.length ≠ 0 then
    ((soup.img_alts.filter id).length : ℚ) / ((max soup.img_alts.length 1 : ℕ) : ℚ) * 10
  else 10

/-- `inline_score` (analyzer.py:137-140). -/
def inlineScoreOf (soup : SoupData) : ℚ :=
  max 0 (10 - ((min (soup.inline_styled + soup.style_tag_count) 5 : ℕ) : ℚ) / 5 * 10)

/-- `balance_score` (analyzer.py:142-144). -/
def balanceScoreOf (content : List Char) : ℚ :=
  if ((countOpenTags content : ℤ) - (countCloseTags content : ℤ)).natAbs ≤ 3 then 20 else 10

/-- `score_html_quality` (analyzer.py:110-148) on decoded content and
the soup-derived counts; the decode-error branch is outside the
embedded computation. -/
def score_html_quality (content : List Char) (soup : SoupData) : ℚ :=
  round2 (semanticScoreOf soup + htmlIndentScoreOf (pySplitlines content) +
    lineLengthScoreOf (pySplitlines content) + altScoreOf soup + inlineScoreOf soup +
    balanceScoreOf content)

/-! ## CSS scorer — src/backend/analyzer.py:150-181 -/

/-- A character of the regex class `[a-zA-Z0-9_-]`. -/
def isCssIdent (c : Char) : Bool :=
  c.isAlphanum || c = '_' || c = '-'

/-- A character of the regex class `[a-zA-Z-]`. -/
def isPropChar (c : Char) : Bool :=
  c.isAlpha || c = '-'

/-- Count of `re.findall(r'#[a-zA-Z0-9_-]+', content)` (analyzer.py:159).
Each non-overlapping match starts at a `#` followed by an identifier
character, and a matched identifier run never contains a `#` (it is not
in the class), so the count equals the number of positions where `#` is
immediately followed by an identifier character. -/
def countIdSelectors : List Char → ℕ
  | [] => 0
  | '#' :: c :: t => (if isCssIdent c then 1 else 0) + countIdSelectors (c :: t)
  | _ :: t => countIdSelectors t

/-- `modularity_score = min(25, 25 - min(id_selectors, 10))` (analyzer.py:160). -/
def css_modularity_score (content : List Char) : ℚ :=
  min 25 (25 - ((min (countIdSelectors content) 10 : ℕ) : ℚ))

/-- The groups of `re.findall(r'([a-zA-Z-]+)\s*:', content)`
(analyzer.py:162): maximal `[a-zA-Z-]` runs followed (after optional
whitespace) by a colon; on a failed attempt the whole run is skipped,
which agrees with the engine since every restart inside the run sees
the same trailing whitespace and non-colon character. -/
def scanProps : List Char → List (List Char)
  | [] => []
  | c :: t =>
    if isPropChar c then
      match hm : List.dropWhile isPySpace (List.dropWhile isPropChar t) with
      | ':' :: r2 => (c :: List.takeWhile isPropChar t) :: scanProps r2
      | _ => scanProps (List.dropWhile isPropChar t)
    else scanProps t
termination_by l => l.length
decreasing_by
  · have h1 := (List.dropWhile_sublist (l := t) isPropChar).length_le
    have h2 := (List.dropWhile_sublist
      (l := List.dropWhile isPropChar t) isPySpace).length_le
    have h3 : (List.dropWhile isPySpace (List.dropWhile isPropChar t)).length = r2.length + 1 := by
      rw [hm]; simp
    simp_arith
    omega
  · have h1 := (List.dropWhile_sublist (l := t) isPropChar).length_le
    simp_arith
    omega
  · simp_arith

/-- Count of `re.findall(r'/\*.*?\*/', content, re.DOTALL)`
(analyzer.py:173): lazily matched block comments, again as a state
machine (`inside = true` between `/*` and the first subsequent `*/`). -/
def countCCAux : Bool → List Char → ℕ
  | _, [] => 0
  | true, '*' :: '/' :: t => 1 + countCCAux false t
  | true, _ :: t => countCCAux true t
  | false, '/' :: '*' :: t => countCCAux true t
  | false, _ :: t => countCCAux false t
termination_by _ l => l.length
decreasing_by all_goals simp_arith

/-- `comment_lines` of the CSS scorer (analyzer.py:173). -/
def countCssComments (content : List Char) : ℕ :=
  countCCAux false content

/-- Count of `re.findall(r'!important', content)` (analyzer.py:176).
`!important` contains `!` only at its head, so occurrences cannot
overlap and the non-overlapping count equals the count of all starting
positions. -/
def countImportant : List Char → ℕ
  | [] => 0
  | c :: t =>
    (if List.isPrefixOf ("!important".data) (c :: t) then 1 else 0) + countImportant t

/-- `reuse_score` (analyzer.py:162-165): 20 minus twice the number of
duplicate property names, at most 5 duplicates counted. -/
def reuseScoreOf (content : List Char) : ℚ :=
  max 0 (20 - ((min ((scanProps content).length - (scanProps content).dedup.length) 5 : ℕ) : ℚ) * 2)

/-- `rule_score` (analyzer.py:167-168): brace count within [3, 200]. -/
def ruleScoreOf (content : List Char) : ℚ :=
  if 3 ≤ content.count (Char.ofNat 123) ∧ content.count (Char.ofNat 123) ≤ 200 then 15 else 5

/-- `format_score = max(0, 20 - long_lines)` (analyzer.py:170-171). -/
def formatScoreOf (lines : List (List Char)) : ℚ :=
  max 0 (20 - ((lines.filter (fun l => 120 < l.length)).length : ℚ))

/-- `comment_score = min(comment_lines, 5) / 5 * 10` (analyzer.py:174). -/
def cssCommentScoreOf (content : List Char) : ℚ :=
  ((min (countCssComments content) 5 : ℕ) : ℚ) / 5 * 10

/-- `important_score = max(0, 10 - min(important_usage, 5) * 2)` (analyzer.py:177). -/
def importantScoreOf (content : List Char) : ℚ :=
  max 0 (10 - ((min (countImportant content) 5 : ℕ) : ℚ) * 2)

/-- `score_css_quality` (analyzer.py:150-181) on decoded content; the
decode-error branch is outside the embedded computation.
(`class_selectors` is computed by the source but unused in the score.) -/
def score_css_quality (content : List Char) : ℚ :=
  round2 (css_modularity_score content + reuseScoreOf content + ruleScoreOf content +
    formatScoreOf (pySplitlines content) + cssCommentScoreOf content + importantScoreOf content)

/-! ## Repository aggregator — src/backend/analyzer.py:183-277 -/

/-- The `weights` dictionary (analyzer.py:235-240); `structural` renders
the source's structure key (a Lean keyword). -/
structure Weights where
  lizard : ℚ
  html : ℚ
  css : ℚ
  structural : ℚ
deriving DecidableEq

/-- The weight table selected from the evidence-presence triple
(analyzer.py:235-255): the base table with the updates of the
`if`/`elif` chain applied. -/
def selectWeights (has_code has_html has_css : Bool) : Weights :=
  if has_code && has_html && has_css then ⟨0.35, 0.25, 0.25, 0.15⟩
  else if has_code && has_html then ⟨0.5, 0.35, 0, 0.15⟩
  else if has_code && has_css then ⟨0.5, 0, 0.35, 0.15⟩
  else if has_code then ⟨0.85, 0, 0, 0.15⟩
  else if has_html && has_css then ⟨0, 0.45, 0.4, 0.15⟩
  else if has_html then ⟨0, 0.85, 0, 0.15⟩
  else if has_css then ⟨0, 0, 0.85, 0.15⟩
  else ⟨0, 0, 0, 0.15⟩

/-- `avg_lizard = mean(lizard_scores) if has_code else 0` and its two
siblings (analyzer.py:230-232). -/
def kindAverage (scores : List ℚ) : ℚ :=
  if scores.isEmpty then 0 else qmean scores

/-- `structure_bonus = min(15, (file_count + folder_count) / 10)` (analyzer.py:233). -/
def structureBonus (file_count folder_count : ℕ) : ℚ :=
  min 15 (((file_count + folder_count : ℕ) : ℚ) / 10)

/-- The weighted blend before rounding (analyzer.py:257-262). -/
def rawRepoScore (lizard_scores html_scores css_scores : List ℚ)
    (file_count folder_count : ℕ) : ℚ :=
  kindAverage lizard_scores *
      (selectWeights (!lizard_scores.isEmpty) (!html_scores.isEmpty) (!css_scores.isEmpty)).lizard +
    kindAverage html_scores *
      (selectWeights (!lizard_scores.isEmpty) (!html_scores.isEmpty) (!css_scores.isEmpty)).html +
    kindAverage css_scores *
      (selectWeights (!lizard_scores.isEmpty) (!html_scores.isEmpty) (!css_scores.isEmpty)).css +
    structureBonus file_count folder_count

/-- The scored-path payload of `analyze_repo_githired` (analyzer.py:264-274). -/
structure ScoredRepo where
  overall_score : ℚ
  avg_lizard_score : ℚ
  avg_html_score : ℚ
  avg_css_score : ℚ
  structure_bonus : ℚ
  weights_used : Weights
deriving DecidableEq

/-- Result of `analyze_repo_githired`: the no-supported-files fallback
dict `{"overall_score": 15.0, "note": ...}` (analyzer.py:223-228) or the
full scored dict. -/
inductive RepoAnalysis where
  | structureOnly : RepoAnalysis
  | scored : ScoredRepo → RepoAnalysis
deriving DecidableEq

/-- The `overall_score` entry of either result shape. -/
def RepoAnalysis.overallScore : RepoAnalysis → ℚ
  | .structureOnly => 15
  | .scored s => s.overall_score

/-- `analyze_repo_githired` (analyzer.py:183-277), with the clone and
file-tree walk (I/O) stripped: inputs are the collected per-kind score
lists and the file/folder counts, exactly the state after the walk
(analyzer.py:193-217). -/
def analyze_repo_githired (lizard_scores html_scores css_scores : List ℚ)
    (file_count folder_count : ℕ) : RepoAnalysis :=
  if lizard_scores.isEmpty && html_scores.isEmpty && css_scores.isEmpty then
    .structureOnly
  else
    .scored
      { overall_score := round2 (rawRepoScore lizard_scores html_scores css_scores
          file_count folder_count)
        avg_lizard_score := round2 (kindAverage lizard_scores)
        avg_html_score := round2 (kindAverage html_scores)
        avg_css_score := round2 (kindAverage css_scores)
        structure_bonus := round2 (structureBonus file_count folder_count)
        weights_used := selectWeights (!lizard_scores.isEmpty) (!html_scores.isEmpty)
          (!css_scores.isEmpty) }

/-! ## Profile activity scorer — src/backend/app.py:1090-1261 -/

/-- The `breakdown` dict (app.py:1241-1247); every entry is `round`ed
to an integer. -/
structure ActivityBreakdown where
  commit_frequency : ℤ
  recent_activity : ℤ
  consistency : ℤ
  repository_activity : ℤ
  growth_trend : ℤ
deriving DecidableEq

/-- The activity-score payload (app.py:1256-1261, details omitted). -/
structure ActivityResult where
  activity_score : ℤ
  breakdown : ActivityBreakdown
deriving DecidableEq

/-- `get_activity_score` (app.py:1090-1261), network and datetime
handling stripped: `repos_count` is `len(repos)`, and
`account_age_months`, `total_commits`, `recent_activity_count` and
`active_repos` are the values the date/event analysis
(app.py:1140-1190) produced.  The zero-repository short-circuit
(app.py:1121-1138) precedes all of those computations. -/
def get_activity_score (repos_count : ℕ) (account_age_months : ℚ)
    (total_commits recent_activity_count active_repos : ℕ) : ActivityResult :=
  if repos_count = 0 then
    { activity_score := 0
      breakdown := { commit_frequency := 0, recent_activity := 0, consistency := 0,
                     repository_activity := 0, growth_trend := 0 } }
  else
    let commit_frequency_score : ℚ :=
      min ((total_commits : ℚ) / max (account_age_months / 3) 1 * 5) 100
    let recent_activity_score : ℚ :=
      min ((recent_activity_count : ℚ) / ((max repos_count 1 : ℕ) : ℚ) * 100) 100
    let consistency_score : ℚ :=
      if 12 ≤ account_age_months then
        min ((50 : ℚ) + (if 0 < recent_activity_count then 30 else 0) +
          (if 50 < total_commits then 20 else 0)) 100
      else min ((recent_activity_count : ℚ) * 10) 60
    let repo_activity_score : ℚ :=
      min ((active_repos : ℚ) / ((max repos_count 1 : ℕ) : ℚ) * 100) 100
    let growth_trend_score : ℚ :=
      if 6 < account_age_months then
        min ((repos_count : ℚ) / max (account_age_months / 12 * 10) 1 * 50) 100
      else min ((repos_count : ℚ) * 15) 100
    { activity_score := roundHalfEven (commit_frequency_score * 0.30 +
        recent_activity_score * 0.25 + consistency_score * 0.20 +
        repo_activity_score * 0.15 + growth_trend_score * 0.10)
      breakdown := { commit_frequency := roundHalfEven commit_frequency_score
                     recent_activity := roundHalfEven recent_activity_score
                     consistency := roundHalfEven consistency_score
                     repository_activity := roundHalfEven repo_activity_score
                     growth_trend := roundHalfEven growth_trend_score } }

/-! ## Claim theorems -/

/-- C3: for every username, job text, required-skill set and
nice-to-have set, calling the candidate ranker with an empty repository
list returns an overall match percentage of 0 and an empty repo-match
list, without raising an error (the function is total and takes the
early-return branch of app.py:814-819). -/
theorem claim_C3_empty_repo_list (username job_description : String)
    (required_skills nice_to_have : List String) :
    match_single_candidate username job_description required_skills nice_to_have [] =
      { candidate_username := username, total_match_percentage := 0, repo_matches := [] } :=
  rfl

/-- C4: for every pair of file and folder counts, repository
aggregation with empty code, markup and stylesheet evidence returns the
fixed fallback result with overall score 15.0 (analyzer.py:223-228);
the fallback constructor carries no average or weight data, so no
division or averaging happens on this path. -/
theorem claim_C4_no_evidence_fallback (file_count folder_count : ℕ) :
    analyze_repo_githired [] [] [] file_count folder_count = RepoAnalysis.structureOnly ∧
      (analyze_repo_githired [] [] [] file_count folder_count).overallScore = 15 :=
  ⟨rfl, rfl⟩

/-- C9: for every account input whose repository list is empty, the
profile activity scorer short-circuits (app.py:1121-1138) and returns
all five sub-scores and the final activity score equal to 0, whatever
the values of the age/commit/activity parameters none of whose ratio
formulas are evaluated. -/
theorem claim_C9_zero_repos_short_circuit (account_age_months : ℚ)
    (total_commits recent_activity_count active_repos : ℕ) :
    get_activity_score 0 account_age_months total_commits recent_activity_count active_repos =
      { activity_score := 0
        breakdown := { commit_frequency := 0, recent_activity := 0, consistency := 0,
                       repository_activity := 0, growth_trend := 0 } } :=
  rfl

/-- C5: for every complexity-report text, the complexity summarizer
returns the clamp `max 0 (min 100 (100 - (avg - 1) * 12.5))` of any
parsed average-complexity figure, returns exactly 50 when no figure is
present, maps a parsed 1 to exactly 100 and any parsed value ≥ 9 to 0,
and the transform is monotonically non-increasing in the parsed value. -/
theorem claim_C5_complexity_transform :
    (∀ (out : String) (g : List Char) (a : ℚ), findAvgGroup out.data = some g →
      pyFloat g = some a →
      extract_avg_ccn_from_lizard_output out = some (ccnTransform a)) ∧
    (∀ out : String, findAvgGroup out.data = none →
      extract_avg_ccn_from_lizard_output out = some 50) ∧
    ccnTransform 1 = 100 ∧
    (∀ a : ℚ, 9 ≤ a → ccnTransform a = 0) ∧
    (∀ a b : ℚ, a ≤ b → ccnTransform b ≤ ccnTransform a) := by
  refine ⟨?_, ?_, ?_, ?_, ?_⟩
  · intro out g a h1 h2
    simp [extract_avg_ccn_from_lizard_output, h1, h2]
  · intro out h1
    simp [extract_avg_ccn_from_lizard_output, h1]
  · unfold ccnTransform
    norm_num
  · intro a ha
    unfold ccnTransform
    have h2 : 100 - (a - 1) * 12.5 ≤ 0 := by linarith
    have h3 : min 100 (100 - (a - 1) * 12.5) ≤ 0 := le_trans (min_le_right _ _) h2
    exact max_eq_left h3
  · intro a b hab
    unfold ccnTransform
    have : 100 - (b - 1) * 12.5 ≤ 100 - (a - 1) * 12.5 := by linarith
    exact max_le_max le_rfl (min_le_min le_rfl this)

/-- C5 witness: the theorem applied at concrete reports.
`"AvgCCN: 3"` parses to 3 and scores `ccnTransform 3 = 75`;
`"no data"` has no figure and scores 50. -/
theorem claim_C5_witness :
    extract_avg_ccn_from_lizard_output ("AvgCCN: 3") = some (ccnTransform 3) ∧
    extract_avg_ccn_from_lizard_output ("no data") = some 50 ∧
    ccnTransform 9 ≤ ccnTransform 1 := by
  refine ⟨?_, ?_, ?_⟩
  · refine claim_C5_complexity_transform.1 ("AvgCCN: 3") ['3'] 3 (by decide) ?_
    have hp : pyFloatParts ['3'] = some (3, 0, 0) := by decide
    unfold pyFloat
    rw [hp]
    simp
  · exact claim_C5_complexity_transform.2.1 ("no data") (by decide)
  · exact claim_C5_complexity_transform.2.2.2.2 1 9 (by norm_num)

/-- A stylesheet containing exactly 20 ID selectors. -/
def css20Ids : String :=
  "#a #b #c #d #e #f #g #h #i #j #k #l #m #n #o #p #q #r #s #t"

/-- C8 counterexample: the claim says the ID-selector component is
`25 - id_selectors` floored at 0, which would give 5 points for 20 ID
selectors; the code (analyzer.py:160) computes
`min(25, 25 - min(id_selectors, 10))`, which gives 15. -/
theorem claim_C8_counterexample :
    countIdSelectors css20Ids.data = 20 ∧
    css_modularity_score css20Ids.data = 15 ∧
    css_modularity_score css20Ids.data ≠ max 0 (25 - (countIdSelectors css20Ids.data : ℚ)) := by
  have hc : countIdSelectors css20Ids.data = 20 := by decide
  have hm : css_modularity_score css20Ids.data = 15 := by
    unfold css_modularity_score
    rw [hc]
    norm_num
  refine ⟨hc, hm, ?_⟩
  rw [hm, hc]
  norm_num

/-- C8, amended: for every stylesheet content, the ID-selector scarcity
component equals 25 minus the ID-selector count capped at 10
(analyzer.py:160), hence it always lies in [15, 25] — in particular a
stylesheet with 20 ID selectors receives 15 points, not 5, and the
floor at 0 is never reached. -/
theorem claim_C8_modularity_capped (content : List Char) :
    css_modularity_score content = 25 - ((min (countIdSelectors content) 10 : ℕ) : ℚ) ∧
    15 ≤ css_modularity_score content ∧ css_modularity_score content ≤ 25 := by
  have hle : (min (countIdSelectors content) 10 : ℕ) ≤ 10 := min_le_right _ _
  have hleq : ((min (countIdSelectors content) 10 : ℕ) : ℚ) ≤ 10 := by exact_mod_cast hle
  have hge : (0 : ℚ) ≤ ((min (countIdSelectors content) 10 : ℕ) : ℚ) := by positivity
  have heq : css_modularity_score content
      = 25 - ((min (countIdSelectors content) 10 : ℕ) : ℚ) := by
    unfold css_modularity_score
    exact min_eq_right (by linarith)
  exact ⟨heq, by rw [heq]; linarith, by rw [heq]; linarith⟩

theorem ratio_mul_le {m d : ℕ} (hmd : m ≤ d) (hd : 0 < d) (k : ℚ) (hk : 0 ≤ k) :
    (m : ℚ) / (d : ℚ) * k ≤ k := by
  have hdq : (0 : ℚ) < (d : ℚ) := by exact_mod_cast hd
  have hone : (m : ℚ) / (d : ℚ) ≤ 1 := by
    rw [div_le_one hdq]
    exact_mod_cast hmd
  calc (m : ℚ) / (d : ℚ) * k ≤ 1 * k := mul_le_mul_of_nonneg_right hone hk
    _ = k := one_mul k

theorem required_score_le (required : List String) (r : RepoInput) :
    required_score required r ≤ 70 := by
  unfold required_score
  exact ratio_mul_le
    (le_trans (le_trans (List.length_filter_le _ _) (List.dedup_sublist required).length_le)
      (le_max_left _ _))
    (lt_of_lt_of_le Nat.zero_lt_one (le_max_right _ _)) 70 (by norm_num)

theorem nice_to_have_score_le (nice : List String) (r : RepoInput) :
    nice_to_have_score nice r ≤ 15 := by
  unfold nice_to_have_score
  exact ratio_mul_le
    (le_trans (le_trans (List.length_filter_le _ _) (List.dedup_sublist nice).length_le)
      (le_max_left _ _))
    (lt_of_lt_of_le Nat.zero_lt_one (le_max_right _ _)) 15 (by norm_num)

/-- C1: for every repository, required-skill set, nice-to-have set and
job-skill set, the per-repository match percentage equals the sum of
the four weighted components capped at 100 — required-skill overlap
ratio × 70, nice-to-have overlap ratio × 15, free-text
keyword-presence ratio × 10 itself capped at 10, and the
documentation/popularity bonus of at most 5 (README term ≤ 3, star
term ≤ 2) — so it is always ≤ 100, and it is exactly 100 on a concrete
repository on which all four components are simultaneously maximal. -/
theorem claim_C1_match_percentage_formula :
    (∀ (required nice allJob : List String) (r : RepoInput),
      repo_match_percentage required nice allJob r =
        min (required_score required r + nice_to_have_score nice r +
          context_score allJob r + readme_bonus r + popularity_bonus r) 100 ∧
      required_score required r ≤ 70 ∧
      nice_to_have_score nice r ≤ 15 ∧
      context_score allJob r ≤ 10 ∧
      readme_bonus r ≤ 3 ∧ popularity_bonus r ≤ 2 ∧
      repo_match_percentage required nice allJob r ≤ 100) ∧
    repo_match_percentage ["python"] ["flask"] (all_job_skills ["python"] ["flask"] "")
      { name := "demo", detected_skills := ["python", "flask"], readme_content := "",
        description := "python flask", stars := 10, readme_length := 1000 } = 100 := by
  constructor
  · intro required nice allJob r
    refine ⟨rfl, required_score_le required r, nice_to_have_score_le nice r,
      min_le_right _ _, ?_, ?_, min_le_right _ _⟩
    · unfold readme_bonus
      have : min ((r.readme_length : ℚ) / 1000) 1 ≤ 1 := min_le_right _ _
      linarith
    · unfold popularity_bonus
      have : min ((r.stars : ℚ) / 10) 1 ≤ 1 := min_le_right _ _
      linarith
  · have h1 : requiredMatches ["python"]
        { name := "demo", detected_skills := ["python", "flask"], readme_content := "",
          description := "python flask", stars := 10, readme_length := 1000 } = 1 := by decide
    have h2 : niceMatches ["flask"]
        { name := "demo", detected_skills := ["python", "flask"], readme_content := "",
          description := "python flask", stars := 10, readme_length := 1000 } = 1 := by decide
    have h3 : contextMatches (all_job_skills ["python"] ["flask"] "")
        { name := "demo", detected_skills := ["python", "flask"], readme_content := "",
          description := "python flask", stars := 10, readme_length := 1000 } = 2 := by decide
    have h4 : (all_job_skills ["python"] ["flask"] "").length = 2 := by decide
    unfold repo_match_percentage required_score nice_to_have_score context_score
      readme_bonus popularity_bonus
    rw [h1, h2, h3, h4]
    norm_num [min_def, Nat.max_def]

/-- The demo repository of C2's spec scenario: zero stars, zero README
length; its weight is 1, not 0. -/
def zeroWeightRepo : RepoInput :=
  { name := "z", detected_skills := ["python"], readme_content := "",
    description := "", stars := 0, readme_length := 0 }

/-- C2: for every non-empty repository list, every per-repository
weight is at least 1, the total weight is positive (so no division by
zero occurs), and the ranker's aggregate is exactly the weighted
average `sum(weighted_scores) / total_weight`; moreover any repository
with stars = 0 and readmeLength = 0 carries weight exactly
`max(0,1) * max(0/100, 1) = 1`. -/
theorem claim_C2_weighted_average (required nice allJob : List String)
    (top_repos : List RepoInput) (hne : top_repos ≠ []) :
    (∀ r ∈ top_repos, 1 ≤ repo_weight r) ∧
    0 < candidate_total_weight top_repos ∧
    candidate_aggregate required nice allJob top_repos =
      candidate_weighted_sum required nice allJob top_repos /
        candidate_total_weight top_repos ∧
    repo_weight zeroWeightRepo = 1 := by
  have hw : ∀ r : RepoInput, 1 ≤ repo_weight r := by
    intro r
    unfold repo_weight
    have h1 : (1 : ℚ) ≤ ((max r.stars 1 : ℕ) : ℚ) := by
      have : 1 ≤ max r.stars 1 := le_max_right _ _
      exact_mod_cast this
    have h2 : (1 : ℚ) ≤ max ((r.readme_length : ℚ) / 100) 1 := le_max_right _ _
    calc (1 : ℚ) = 1 * 1 := by ring
      _ ≤ _ := mul_le_mul h1 h2 (by norm_num) (by linarith)
  have htw : 0 < candidate_total_weight top_repos := by
    unfold candidate_total_weight
    apply list_sum_pos_of_one_le
    · rcases top_repos with _ | ⟨r, t⟩
      · exact absurd rfl hne
      · simp
    · intro x hx
      simp only [List.mem_map] at hx
      obtain ⟨r, _, rfl⟩ := hx
      exact hw r
  refine ⟨fun r _ => hw r, htw, ?_, ?_⟩
  · unfold candidate_aggregate
    rw [if_pos htw]
  · unfold repo_weight zeroWeightRepo
    norm_num

/-- C2 witness: the theorem applied to the singleton list containing
the zero-star, zero-README repository. -/
theorem claim_C2_witness :
    (∀ r ∈ [zeroWeightRepo], 1 ≤ repo_weight r) ∧
    0 < candidate_total_weight [zeroWeightRepo] ∧
    candidate_aggregate ["python"] [] ["python"] [zeroWeightRepo] =
      candidate_weighted_sum ["python"] [] ["python"] [zeroWeightRepo] /
        candidate_total_weight [zeroWeightRepo] ∧
    repo_weight zeroWeightRepo = 1 :=
  claim_C2_weighted_average ["python"] [] ["python"] [zeroWeightRepo] (by simp)

theorem indentScoreOf_bounds (lines : List (List Char)) :
    0 ≤ indentScoreOf lines ∧ indentScoreOf lines ≤ 15 := by
  unfold indentScoreOf
  exact ⟨le_max_left _ _, max_le (by norm_num) (min_le_left _ _)⟩

theorem commentScoreOf_bounds (ext : String) (lines : List (List Char)) :
    5 ≤ commentScoreOf ext lines ∧ commentScoreOf ext lines ≤ 25 := by
  unfold commentScoreOf
  split
  · norm_num
  · split <;> norm_num

theorem structureScoreOf_bounds (lines : List (List Char)) :
    0 ≤ structureScoreOf lines ∧ structureScoreOf lines ≤ 10 := by
  unfold structureScoreOf
  refine ⟨le_max_left _ _, max_le (by norm_num) ?_⟩
  have : (0 : ℚ) ≤ ((lines.filter (fun l => 100 < l.length)).length : ℚ) := by positivity
  linarith

theorem blankScoreOf_bounds (lines : List (List Char)) :
    0 ≤ blankScoreOf lines ∧ blankScoreOf lines ≤ 10 := by
  unfold blankScoreOf
  refine ⟨le_min (by positivity) (by norm_num), min_le_right _ _⟩

theorem scored_branch_bounds (ext : String) (lines : List (List Char)) :
    5 ≤ round2 (indentScoreOf lines + commentScoreOf ext lines +
        structureScoreOf lines + blankScoreOf lines) ∧
    round2 (indentScoreOf lines + commentScoreOf ext lines +
        structureScoreOf lines + blankScoreOf lines) ≤ 60 := by
  obtain ⟨i1, i2⟩ := indentScoreOf_bounds lines
  obtain ⟨c1, c2⟩ := commentScoreOf_bounds ext lines
  obtain ⟨s1, s2⟩ := structureScoreOf_bounds lines
  obtain ⟨b1, b2⟩ := blankScoreOf_bounds lines
  constructor
  · have := le_round2 (a := 5)
      (q := indentScoreOf lines + commentScoreOf ext lines +
        structureScoreOf lines + blankScoreOf lines) (by push_cast; linarith)
    simpa using this
  · have := round2_le (b := 60)
      (q := indentScoreOf lines + commentScoreOf ext lines +
        structureScoreOf lines + blankScoreOf lines) (by push_cast; linarith)
    simpa using this

theorem semanticScoreOf_bounds (soup : SoupData) :
    0 ≤ semanticScoreOf soup ∧ semanticScoreOf soup ≤ 25 := by
  unfold semanticScoreOf
  have h : ((min soup.semantic_count 5 : ℕ) : ℚ) ≤ 5 := by
    exact_mod_cast min_le_right soup.semantic_count 5
  have h0 : (0 : ℚ) ≤ ((min soup.semantic_count 5 : ℕ) : ℚ) := by positivity
  exact ⟨by positivity, by linarith⟩

theorem htmlIndentScoreOf_bounds (lines : List (List Char)) :
    10 ≤ htmlIndentScoreOf lines ∧ htmlIndentScoreOf lines ≤ 20 := by
  unfold htmlIndentScoreOf
  split <;> norm_num

theorem lineLengthScoreOf_bounds (lines : List (List Char)) :
    0 ≤ lineLengthScoreOf lines ∧ lineLengthScoreOf lines ≤ 15 := by
  unfold lineLengthScoreOf
  split
  · norm_num
  · refine ⟨le_max_left _ _, max_le (by norm_num) ?_⟩
    have : (0 : ℚ) ≤ ((lines.filter (fun l => 120 < l.length)).length : ℚ) := by positivity
    linarith

theorem altScoreOf_bounds (soup : SoupData) :
    0 ≤ altScoreOf soup ∧ altScoreOf soup ≤ 10 := by
  unfold altScoreOf
  split
  · refine ⟨by positivity, ratio_mul_le ?_ ?_ 10 (by norm_num)⟩
    · exact le_trans (List.length_filter_le _ _) (le_max_left _ _)
    · exact lt_of_lt_of_le Nat.zero_lt_one (le_max_right _ _)
  · norm_num

theorem inlineScoreOf_bounds (soup : SoupData) :
    0 ≤ inlineScoreOf soup ∧ inlineScoreOf soup ≤ 10 := by
  unfold inlineScoreOf
  refine ⟨le_max_left _ _, max_le (by norm_num) ?_⟩
  have : (0 : ℚ) ≤ ((min (soup.inline_styled + soup.style_tag_count) 5 : ℕ) : ℚ) / 5 * 10 := by
    positivity
  linarith

theorem balanceScoreOf_bounds (content : List Char) :
    10 ≤ balanceScoreOf content ∧ balanceScoreOf content ≤ 20 := by
  unfold balanceScoreOf
  split <;> norm_num

theorem cssModularityBounds (content : List Char) :
    15 ≤ css_modularity_score content ∧ css_modularity_score content ≤ 25 := by
  unfold css_modularity_score
  have hle : ((min (countIdSelectors content) 10 : ℕ) : ℚ) ≤ 10 := by
    exact_mod_cast min_le_right (countIdSelectors content) 10
  have hge : (0 : ℚ) ≤ ((min (countIdSelectors content) 10 : ℕ) : ℚ) := by positivity
  exact ⟨le_min (by norm_num) (by linarith), min_le_left _ _⟩

theorem reuseScoreOf_bounds (content : List Char) :
    0 ≤ reuseScoreOf content ∧ reuseScoreOf content ≤ 20 := by
  unfold reuseScoreOf
  refine ⟨le_max_left _ _, max_le (by norm_num) ?_⟩
  have : (0 : ℚ) ≤
      ((min ((scanProps content).length - (scanProps content).dedup.length) 5 : ℕ) : ℚ) * 2 := by
    positivity
  linarith

theorem ruleScoreOf_bounds (content : List Char) :
    5 ≤ ruleScoreOf content ∧ ruleScoreOf content ≤ 15 := by
  unfold ruleScoreOf
  split <;> norm_num

theorem formatScoreOf_bounds (lines : List (List Char)) :
    0 ≤ formatScoreOf lines ∧ formatScoreOf lines ≤ 20 := by
  unfold formatScoreOf
  refine ⟨le_max_left _ _, max_le (by norm_num) ?_⟩
  have : (0 : ℚ) ≤ ((lines.filter (fun l => 120 < l.length)).length : ℚ) := by positivity
  linarith

theorem cssCommentScoreOf_bounds (content : List Char) :
    0 ≤ cssCommentScoreOf content ∧ cssCommentScoreOf content ≤ 10 := by
  unfold cssCommentScoreOf
  have h : ((min (countCssComments content) 5 : ℕ) : ℚ) ≤ 5 := by
    exact_mod_cast min_le_right (countCssComments content) 5
  have h0 : (0 : ℚ) ≤ ((min (countCssComments content) 5 : ℕ) : ℚ) := by positivity
  exact ⟨by positivity, by linarith⟩

theorem importantScoreOf_bounds (content : List Char) :
    0 ≤ importantScoreOf content ∧ importantScoreOf content ≤ 10 := by
  unfold importantScoreOf
  refine ⟨le_max_left _ _, max_le (by norm_num) ?_⟩
  have : (0 : ℚ) ≤ ((min (countImportant content) 5 : ℕ) : ℚ) * 2 := by positivity
  linarith

/-- C6: each of the three file scorers returns a score in [0, 100] on
every decodable file content, and the code-readability scorer returns
the valid zero-line result with score exactly 0 on a file with zero
lines. -/
theorem claim_C6_file_scorer_ranges :
    (∀ (ext : String) (content : List Char),
      0 ≤ (score_code_readability ext content).score ∧
      (score_code_readability ext content).score ≤ 100) ∧
    (∀ (content : List Char) (soup : SoupData),
      0 ≤ score_html_quality content soup ∧ score_html_quality content soup ≤ 100) ∧
    (∀ content : List Char,
      0 ≤ score_css_quality content ∧ score_css_quality content ≤ 100) ∧
    (∀ ext : String, score_code_readability ext [] = ReadabilityResult.zeroLines ∧
      (score_code_readability ext []).score = 0) := by
  refine ⟨?_, ?_, ?_, fun ext => ⟨rfl, rfl⟩⟩
  · intro ext content
    by_cases h : (pyReadlines content).isEmpty
    · simp [score_code_readability, h, ReadabilityResult.score]
    · obtain ⟨h1, h2⟩ := scored_branch_bounds ext (pyReadlines content)
      simp only [score_code_readability, h, Bool.false_eq_true, if_false,
        ReadabilityResult.score]
      exact ⟨by linarith, by linarith⟩
  · intro content soup
    unfold score_html_quality
    obtain ⟨a1, a2⟩ := semanticScoreOf_bounds soup
    obtain ⟨b1, b2⟩ := htmlIndentScoreOf_bounds (pySplitlines content)
    obtain ⟨c1, c2⟩ := lineLengthScoreOf_bounds (pySplitlines content)
    obtain ⟨d1, d2⟩ := altScoreOf_bounds soup
    obtain ⟨e1, e2⟩ := inlineScoreOf_bounds soup
    obtain ⟨f1, f2⟩ := balanceScoreOf_bounds content
    constructor
    · have := le_round2 (a := 0) (q := semanticScoreOf soup +
        htmlIndentScoreOf (pySplitlines content) + lineLengthScoreOf (pySplitlines content) +
        altScoreOf soup + inlineScoreOf soup + balanceScoreOf content) (by push_cast; linarith)
      simpa using this
    · have := round2_le (b := 100) (q := semanticScoreOf soup +
        htmlIndentScoreOf (pySplitlines content) + lineLengthScoreOf (pySplitlines content) +
        altScoreOf soup + inlineScoreOf soup + balanceScoreOf content) (by push_cast; linarith)
      simpa using this
  · intro content
    unfold score_css_quality
    obtain ⟨a1, a2⟩ := cssModularityBounds content
    obtain ⟨b1, b2⟩ := reuseScoreOf_bounds content
    obtain ⟨c1, c2⟩ := ruleScoreOf_bounds content
    obtain ⟨d1, d2⟩ := formatScoreOf_bounds (pySplitlines content)
    obtain ⟨e1, e2⟩ := cssCommentScoreOf_bounds content
    obtain ⟨f1, f2⟩ := importantScoreOf_bounds content
    constructor
    · have := le_round2 (a := 0) (q := css_modularity_score content + reuseScoreOf content +
        ruleScoreOf content + formatScoreOf (pySplitlines content) + cssCommentScoreOf content +
        importantScoreOf content) (by push_cast; linarith)
      simpa using this
    · have := round2_le (b := 100) (q := css_modularity_score content + reuseScoreOf content +
        ruleScoreOf content + formatScoreOf (pySplitlines content) + cssCommentScoreOf content +
        importantScoreOf content) (by push_cast; linarith)
      simpa using this

theorem selectWeights_facts (has_code has_html has_css : Bool) :
    0 ≤ (selectWeights has_code has_html has_css).lizard ∧
    0 ≤ (selectWeights has_code has_html has_css).html ∧
    0 ≤ (selectWeights has_code has_html has_css).css ∧
    (selectWeights has_code has_html has_css).lizard +
      (selectWeights has_code has_html has_css).html +
      (selectWeights has_code has_html has_css).css ≤ 0.85 := by
  cases has_code <;> cases has_html <;> cases has_css <;> norm_num [selectWeights]

theorem kindAverage_le {l : List ℚ} (h : ∀ x ∈ l, x ≤ 100) : kindAverage l ≤ 100 := by
  unfold kindAverage
  split
  · norm_num
  · exact qmean_le (by norm_num) h

theorem rawRepoScore_le (L H C : List ℚ) (fc fo : ℕ)
    (hL : ∀ x ∈ L, x ≤ 100) (hH : ∀ x ∈ H, x ≤ 100) (hC : ∀ x ∈ C, x ≤ 100) :
    rawRepoScore L H C fc fo ≤ 100 := by
  obtain ⟨w1, w2, w3, w4⟩ := selectWeights_facts (!L.isEmpty) (!H.isEmpty) (!C.isEmpty)
  have hA := kindAverage_le hL
  have hB := kindAverage_le hH
  have hD := kindAverage_le hC
  have hbonus : structureBonus fc fo ≤ 15 := min_le_left _ _
  unfold rawRepoScore
  have e1 : kindAverage L * (selectWeights (!L.isEmpty) (!H.isEmpty) (!C.isEmpty)).lizard ≤
      100 * (selectWeights (!L.isEmpty) (!H.isEmpty) (!C.isEmpty)).lizard :=
    mul_le_mul_of_nonneg_right hA w1
  have e2 : kindAverage H * (selectWeights (!L.isEmpty) (!H.isEmpty) (!C.isEmpty)).html ≤
      100 * (selectWeights (!L.isEmpty) (!H.isEmpty) (!C.isEmpty)).html :=
    mul_le_mul_of_nonneg_right hB w2
  have e3 : kindAverage C * (selectWeights (!L.isEmpty) (!H.isEmpty) (!C.isEmpty)).css ≤
      100 * (selectWeights (!L.isEmpty) (!H.isEmpty) (!C.isEmpty)).css :=
    mul_le_mul_of_nonneg_right hD w3
  linarith

/-- C7: for every evidence-presence combination, each absent evidence
kind has weight 0 in the selected weight table, the three kind weights
sum to at most 0.85, and therefore — absent kinds contributing 0 to the
blend (zero average times zero weight) — the repository score never
exceeds 100 when every per-file score is at most 100 (the structural
bonus being capped at 15). -/
theorem claim_C7_weight_table_bound :
    (∀ has_code has_html has_css : Bool,
      (has_code = false → (selectWeights has_code has_html has_css).lizard = 0) ∧
      (has_html = false → (selectWeights has_code has_html has_css).html = 0) ∧
      (has_css = false → (selectWeights has_code has_html has_css).css = 0) ∧
      (selectWeights has_code has_html has_css).lizard +
        (selectWeights has_code has_html has_css).html +
        (selectWeights has_code has_html has_css).css ≤ 0.85) ∧
    (∀ (L H C : List ℚ) (fc fo : ℕ),
      (∀ x ∈ L, x ≤ 100) → (∀ x ∈ H, x ≤ 100) → (∀ x ∈ C, x ≤ 100) →
      (analyze_repo_githired L H C fc fo).overallScore ≤ 100) := by
  constructor
  · intro has_code has_html has_css
    cases has_code <;> cases has_html <;> cases has_css <;>
      simp [selectWeights] <;> norm_num
  · intro L H C fc fo hL hH hC
    by_cases hall : L.isEmpty && H.isEmpty && C.isEmpty
    · simp only [analyze_repo_githired, hall, if_true, RepoAnalysis.overallScore]
      norm_num
    · simp only [analyze_repo_githired, hall, Bool.false_eq_true, if_false,
        RepoAnalysis.overallScore]
      have := round2_le (b := 100) (rawRepoScore_le L H C fc fo hL hH hC)
      simpa using this

/-- C7 witness: the score bound applied to concrete evidence with one
maximal code score and counts yielding the maximal structural bonus. -/
theorem claim_C7_witness :
    (analyze_repo_githired [100] [] [] 300 0).overallScore ≤ 100 :=
  claim_C7_weight_table_bound.2 [100] [] [] 300 0 (by simp) (by simp) (by simp)

theorem translateNL_eq_nil_iff (l : List Char) : translateNL l = [] ↔ l = [] := by
  induction l using translateNL.induct <;> simp [translateNL]

theorem splitKeepAux_eq_nil_iff :
    ∀ (acc l : List Char), splitKeepAux acc l = [] ↔ (l = [] ∧ acc = []) := by
  intro acc l
  induction acc, l using splitKeepAux.induct <;>
    simp_all [splitKeepAux, List.isEmpty_iff]

theorem pyReadlines_ne_nil {content : List Char} (h : content ≠ []) :
    pyReadlines content ≠ [] := by
  unfold pyReadlines
  rw [Ne, splitKeepAux_eq_nil_iff]
  rintro ⟨h1, -⟩
  exact h ((translateNL_eq_nil_iff content).mp h1)

/-- C10: for every non-empty decodable file content, the
code-readability score lies in [5, 60]: the comment-density component
is at least 5, the four components are bounded by their maxima
(indentation 15, comments 25, long-line structure 10, blank-line ratio
10, summing to 60), and in particular a score of 100 is unreachable for
non-empty files despite the nominal 0-100 range. -/
theorem claim_C10_nonempty_score_range (ext : String) (content : List Char)
    (h : content ≠ []) :
    5 ≤ (score_code_readability ext content).score ∧
    (score_code_readability ext content).score ≤ 60 ∧
    5 ≤ commentScoreOf ext (pyReadlines content) ∧
    indentScoreOf (pyReadlines content) ≤ 15 ∧
    commentScoreOf ext (pyReadlines content) ≤ 25 ∧
    structureScoreOf (pyReadlines content) ≤ 10 ∧
    blankScoreOf (pyReadlines content) ≤ 10 ∧
    (score_code_readability ext content).score ≠ 100 := by
  have hnil : pyReadlines content ≠ [] := pyReadlines_ne_nil h
  have hli : ¬(pyReadlines content).isEmpty := by
    simpa [List.isEmpty_iff] using hnil
  obtain ⟨s1, s2⟩ := scored_branch_bounds ext (pyReadlines content)
  have hscore : (score_code_readability ext content).score =
      round2 (indentScoreOf (pyReadlines content) + commentScoreOf ext (pyReadlines content) +
        structureScoreOf (pyReadlines content) + blankScoreOf (pyReadlines content)) := by
    simp only [score_code_readability, hli, Bool.false_eq_true, if_false,
      ReadabilityResult.score]
  refine ⟨by rw [hscore]; exact s1, by rw [hscore]; exact s2,
    (commentScoreOf_bounds ext (pyReadlines content)).1,
    (indentScoreOf_bounds (pyReadlines content)).2,
    (commentScoreOf_bounds ext (pyReadlines content)).2,
    (structureScoreOf_bounds (pyReadlines content)).2,
    (blankScoreOf_bounds (pyReadlines content)).2, ?_⟩
  rw [hscore]
  intro hcontra
  rw [hcontra] at s2
  norm_num at s2

/-- C10 witness: the theorem applied to the one-character file `"x"`
with extension `.py`. -/
theorem claim_C10_witness :
    5 ≤ (score_code_readability (".py") ['x']).score ∧
    (score_code_readability (".py") ['x']).score ≤ 60 ∧
    5 ≤ commentScoreOf (".py") (pyReadlines ['x']) ∧
    indentScoreOf (pyReadlines ['x']) ≤ 15 ∧
    commentScoreOf (".py") (pyReadlines ['x']) ≤ 25 ∧
    structureScoreOf (pyReadlines ['x']) ≤ 10 ∧
    blankScoreOf (pyReadlines ['x']) ≤ 10 ∧
    (score_code_readability (".py") ['x']).score ≠ 100 :=
  claim_C10_nonempty_score_range (".py") ['x'] (by simp)
